import Mathlib

/-!
Shallow embedding of src/components/libraries/util/app_error.h, the common
application error handler of this repository (a modified Nordic SDK file).

Pointers that are only compared against null are modelled as Option values;
the raw uint32 info argument stays a Nat, and the memory behind the
identifier-directed pointer casts is modelled by two layout-view functions.
Side effects (log or printf output, handler invocations, field reads) are
modelled as event traces; side-effecting macro arguments are state
transformers.
-/

/-- app_error.h line 40: the start of the range of error IDs defined in the
SDK. -/
def NRF_FAULT_ID_SDK_RANGE_START : Nat := 0x00004000

/-- app_error.h line 44: fault id of an error stemming from a call to
APP_ERROR_CHECK or APP_ERROR_CHECK_BOOL; the info parameter points to an
error_info_t variable. -/
def NRF_FAULT_ID_SDK_ERROR : Nat := NRF_FAULT_ID_SDK_RANGE_START + 1

/-- app_error.h line 45: fault id of an error stemming from a call to ASSERT;
the info parameter points to an assert_info_t variable. -/
def NRF_FAULT_ID_SDK_ASSERT : Nat := NRF_FAULT_ID_SDK_RANGE_START + 2

/-- Modelled from the spec: the success sentinel NRF_SUCCESS is defined in
sdk_errors.h, which is not under src. The spec describes it as the single
well-known no-error status value that the check-result operation treats as
the sole non-failing outcome; its concrete SDK value is 0. -/
def NRF_SUCCESS : Nat := 0

/-- app_error.h lines 50-55: info record for NRF_FAULT_ID_SDK_ERROR.
A null p_file_name pointer is modelled as none, a non-null pointer to a
static string as some of that string; line_num is a uint16 and err_code a
uint32, on which the code does no arithmetic. -/
structure error_info_t where
  line_num : Nat
  p_file_name : Option String
  err_code : Nat
  deriving DecidableEq

/-- app_error.h lines 59-63: info record for NRF_FAULT_ID_SDK_ASSERT. -/
structure assert_info_t where
  line_num : Nat
  p_file_name : Option String
  deriving DecidableEq

/-- The C reporting functions receive info as a raw uint32 and cast it to a
pointer whose type is dictated by id. The memory behind those casts is
modelled as two view functions: the record read at an address under the
error_info_t layout, respectively under the assert_info_t layout. -/
structure FaultMem where
  errorAt : Nat → error_info_t
  assertAt : Nat → assert_info_t

/-- Observable actions of the two reporting functions: one constructor per
emitted output line, plus the read of the p_file_name pointer field that the
if conditions in app_error_log perform through info. Formatting a file-name
pointer with the %s conversion (outFileName) dereferences the pointed-to
string, which is undefined behaviour when the pointer is null (none). -/
inductive Event where
  | outTitle : Event
  | outFaultId : Nat → Event
  | outProgCounter : Nat → Event
  | outInfoPtr : Nat → Event
  | outLineNum : Nat → Event
  | outFileName : Option String → Event
  | outErrCode : Nat → Event
  | readFileNameField : Nat → Event
  deriving DecidableEq

/-- An event that writes to a sink (every constructor except the pure field
read). -/
def isOutput : Event → Bool
  | .readFileNameField _ => false
  | _ => true

/-- An event that dereferences the file-name string via the %s conversion. -/
def isFileDeref : Event → Bool
  | .outFileName _ => true
  | _ => false

/-- app_error.h lines 100-124, app_error_log. In this repository every
NRF_LOG_INFO statement in the body is commented out, so the surviving
behaviour is: switch on id; for the two known ids, evaluate the if condition
reading the p_file_name field through info, with an empty branch either way;
for any other id, nothing (no default case). The trace keeps the empty
conditional to mirror the source structure. -/
def app_error_log (mem : FaultMem) (id pc info : Nat) : List Event :=
  if id = NRF_FAULT_ID_SDK_ASSERT then
    Event.readFileNameField info ::
      (if ((mem.assertAt info).p_file_name).isSome then [] else [])
  else if id = NRF_FAULT_ID_SDK_ERROR then
    Event.readFileNameField info ::
      (if ((mem.errorAt info).p_file_name).isSome then [] else [])
  else []

/-- app_error.h lines 135-156, app_error_print: four unconditional printf
lines (the title, then the raw fault identifier, program counter and info
pointer value), then a switch on id that prints the decoded fields, with the
file name formatted as a string by %s with no null guard. -/
def app_error_print (mem : FaultMem) (id pc info : Nat) : List Event :=
  [Event.outTitle, Event.outFaultId id, Event.outProgCounter pc,
   Event.outInfoPtr info] ++
  (if id = NRF_FAULT_ID_SDK_ASSERT then
    [Event.outLineNum (mem.assertAt info).line_num,
     Event.outFileName (mem.assertAt info).p_file_name]
  else if id = NRF_FAULT_ID_SDK_ERROR then
    [Event.outLineNum (mem.errorAt info).line_num,
     Event.outFileName (mem.errorAt info).p_file_name,
     Event.outErrCode (mem.errorAt info).err_code]
  else [])

/-- An invocation of one of the two externally declared handler functions
(app_error.h lines 71 and 77), recorded with the arguments passed. -/
inductive HEvent where
  | call_app_error_handler : Nat → Nat → String → HEvent
  | call_app_error_handler_bare : Nat → HEvent
  deriving DecidableEq

/-- The error code an invocation carries. -/
def hEventCode : HEvent → Nat
  | .call_app_error_handler c _ _ => c
  | .call_app_error_handler_bare c => c

/-- app_error.h lines 164-176, APP_ERROR_HANDLER(ERR_CODE): with DEBUG
defined it calls app_error_handler(ERR_CODE, LINE, FILE), otherwise
app_error_handler_bare(ERR_CODE). Modelled as the list of handler
invocations performed, parametrised by the build configuration. -/
def APP_ERROR_HANDLER (debug : Bool) (errCode line : Nat) (file : String) :
    List HEvent :=
  if debug then [HEvent.call_app_error_handler errCode line file]
  else [HEvent.call_app_error_handler_bare errCode]

/-- app_error.h lines 181-189, APP_ERROR_CHECK(ERR_CODE). The argument is a
state transformer returning the uint32 value and the successor state; the
expansion mentions it exactly once, in the initializer of LOCAL_ERR_CODE. In
this repository the APP_ERROR_HANDLER(LOCAL_ERR_CODE) call inside the if is
commented out and replaced by an empty statement, so neither branch invokes
a handler. -/
def APP_ERROR_CHECK {σ : Type} (errCodeExpr : σ → Nat × σ) (s : σ) :
    List HEvent × σ :=
  let r := errCodeExpr s
  if r.1 ≠ NRF_SUCCESS then ([], r.2) else ([], r.2)

/-- app_error.h lines 195-203, APP_ERROR_CHECK_BOOL(BOOLEAN_VALUE): the
argument expression is evaluated exactly once into the uint32
LOCAL_BOOLEAN_VALUE; if that value is zero, APP_ERROR_HANDLER(0) runs. -/
def APP_ERROR_CHECK_BOOL {σ : Type} (debug : Bool) (line : Nat)
    (file : String) (boolExpr : σ → Nat × σ) (s : σ) : List HEvent × σ :=
  let r := boolExpr s
  if r.1 = 0 then (APP_ERROR_HANDLER debug 0 line file, r.2) else ([], r.2)

/-- C conversion of a bool to uint32_t: false is 0, true is 1. -/
def boolToUInt32 (b : Bool) : Nat := if b then 1 else 0

/-- Modelled from the spec: app_error_save_and_stop is only declared under
src (app_error.h line 87); its definition lives elsewhere in the SDK. Per
the spec it saves the parameters id, pc and info and enters an eternal loop,
never returning. States of the small-step model: entry carrying the three
arguments, looping carrying the persisted triple, and returned (control back
at the caller, which the spec says is unreachable). -/
inductive SaveStopState where
  | entry : Nat → Nat → Nat → SaveStopState
  | looping : Nat × Nat × Nat → SaveStopState
  | returned : SaveStopState
  deriving DecidableEq

/-- Modelled from the spec: one step of app_error_save_and_stop. The entry
state persists the triple and enters the loop; the loop steps to itself;
returned is never produced (kept only for totality of the step function). -/
def saveStopStep : SaveStopState → SaveStopState
  | .entry id pc info => .looping (id, pc, info)
  | .looping t => .looping t
  | .returned => .returned

/-- A concrete memory holding the populated SDK_ERROR record of the spec
scenario at every address: line 42, file foo.c, code 7. -/
def memFoo : FaultMem :=
  ⟨fun _ => ⟨42, some "foo.c", 7⟩, fun _ => ⟨42, some "foo.c"⟩⟩

/-- A concrete memory holding the populated SDK_ASSERT record of the spec
scenario: line 10, file bar.c. -/
def memBar : FaultMem :=
  ⟨fun _ => ⟨10, some "bar.c", 0⟩, fun _ => ⟨10, some "bar.c"⟩⟩

/-- A concrete memory whose records carry a null file pointer. -/
def memNull : FaultMem :=
  ⟨fun _ => ⟨42, none, 7⟩, fun _ => ⟨42, none⟩⟩

/-- Claim C1, failing input: at status 0x0B, which is not NRF_SUCCESS, the
expansion of APP_ERROR_CHECK performs no handler invocation at all, because
the APP_ERROR_HANDLER(LOCAL_ERR_CODE) call on line 187 is commented out;
the claim says the escalation path is invoked exactly once with 0x0B. -/
theorem C1_app_error_check_no_handler :
    (APP_ERROR_CHECK (fun u : Unit => (0x0B, u)) ()).1 = [] := rfl

/-- Claim C2, failing input: at id SDK_ERROR with the record line 42,
file foo.c, code 7, app_error_log writes nothing to the logging sink (every
NRF_LOG_INFO is commented out), against the claim that all three fields are
emitted; the null-file half of the claim does hold: with a null file pointer
no dereference of the file string happens. -/
theorem C2_log_emits_nothing :
    (app_error_log memFoo NRF_FAULT_ID_SDK_ERROR 0 4096).filter isOutput
        = [] ∧
    (app_error_log memNull NRF_FAULT_ID_SDK_ERROR 0 4096).filter isFileDeref
        = [] := by
  exact ⟨rfl, rfl⟩

/-- Claim C3: for every build configuration and every boolean condition,
APP_ERROR_CHECK_BOOL invokes the escalation path exactly when the condition
is false, and that invocation carries the fixed neutral code zero. -/
theorem C3_check_bool_escalation (debug b : Bool) (line : Nat)
    (file : String) :
    (APP_ERROR_CHECK_BOOL debug line file
        (fun u : Unit => (boolToUInt32 b, u)) ()).1
      = (if b then [] else APP_ERROR_HANDLER debug 0 line file) ∧
    (APP_ERROR_HANDLER debug 0 line file).map hEventCode = [0] := by
  cases b <;> cases debug <;> exact ⟨rfl, rfl⟩

/-- Claim C4: for every identifier other than the two known fault ids,
app_error_log produces no output at all and app_error_print produces exactly
its four unconditional header lines (title, raw identifier, program counter,
info pointer value), with no field-specific output in either. -/
theorem C4_unknown_id_inert (mem : FaultMem) (id pc info : Nat)
    (h1 : id ≠ NRF_FAULT_ID_SDK_ERROR) (h2 : id ≠ NRF_FAULT_ID_SDK_ASSERT) :
    app_error_log mem id pc info = [] ∧
    app_error_print mem id pc info =
      [Event.outTitle, Event.outFaultId id, Event.outProgCounter pc,
       Event.outInfoPtr info] := by
  simp [app_error_log, app_error_print, h1, h2]

/-- Witness for claim C4 at the concrete unknown identifier 5. -/
theorem C4_unknown_id_inert_witness :
    app_error_log memFoo 5 0 0 = [] ∧
    app_error_print memFoo 5 0 0 =
      [Event.outTitle, Event.outFaultId 5, Event.outProgCounter 0,
       Event.outInfoPtr 0] :=
  C4_unknown_id_inert memFoo 5 0 0 (by decide) (by decide)

/-- Claim C5: both check macros bind their argument expression exactly once,
so an argument with a counter-increment side effect increments the counter
by exactly one per invocation, whatever value it yields. -/
theorem C5_single_evaluation (v n : Nat) (debug : Bool) (line : Nat)
    (file : String) :
    (APP_ERROR_CHECK (fun c : Nat => (v, c + 1)) n).2 = n + 1 ∧
    (APP_ERROR_CHECK_BOOL debug line file
        (fun c : Nat => (v, c + 1)) n).2 = n + 1 := by
  constructor
  · show (if v ≠ NRF_SUCCESS then (([] : List HEvent), n + 1)
        else ([], n + 1)).2 = n + 1
    split <;> rfl
  · show (if v = 0 then (APP_ERROR_HANDLER debug 0 line file, n + 1)
        else ([], n + 1)).2 = n + 1
    split <;> rfl

/-- Claim C6: for both known identifiers and every memory — including one
whose record has a null file pointer — app_error_log never dereferences the
file-name string (its only accesses are guarded by the null check and the
guarded branches are empty), while app_error_print performs exactly one
unguarded string dereference of the record p_file_name field. -/
theorem C6_null_guard_asymmetry (mem : FaultMem) (pc info : Nat) :
    (app_error_log mem NRF_FAULT_ID_SDK_ERROR pc info).filter isFileDeref
        = [] ∧
    (app_error_log mem NRF_FAULT_ID_SDK_ASSERT pc info).filter isFileDeref
        = [] ∧
    (app_error_print mem NRF_FAULT_ID_SDK_ERROR pc info).filter isFileDeref
        = [Event.outFileName (mem.errorAt info).p_file_name] ∧
    (app_error_print mem NRF_FAULT_ID_SDK_ASSERT pc info).filter isFileDeref
        = [Event.outFileName (mem.assertAt info).p_file_name] := by
  refine ⟨?_, ?_, ?_, ?_⟩ <;>
    simp [app_error_log, app_error_print, isFileDeref,
      NRF_FAULT_ID_SDK_ERROR, NRF_FAULT_ID_SDK_ASSERT,
      NRF_FAULT_ID_SDK_RANGE_START, ite_self]

/-- Claim C7, failing input: at id SDK_ASSERT with the record line 10,
file bar.c, app_error_log writes nothing to the logging sink (every
NRF_LOG_INFO is commented out), against the claim that line and file are
emitted; the never-an-error-code half of the claim holds trivially. -/
theorem C7_assert_log_emits_nothing :
    (app_error_log memBar NRF_FAULT_ID_SDK_ASSERT 0 2048).filter isOutput
      = [] := rfl

/-- Once looping, app_error_save_and_stop stays looping forever. -/
theorem saveStop_loop_fixed (n : Nat) (t : Nat × Nat × Nat) :
    saveStopStep^[n] (SaveStopState.looping t) = SaveStopState.looping t := by
  induction n with
  | zero => rfl
  | succ m ih => rw [Function.iterate_succ_apply]; exact ih

/-- Claim C8: from entry with any id, pc and info — including a null info
payload, info = 0 — the first step persists the triple, every further step
stays in the eternal loop, and no number of steps ever reaches the returned
state: control never goes back to the caller. -/
theorem C8_save_and_stop_never_returns (id pc info n : Nat) :
    saveStopStep^[n + 1] (SaveStopState.entry id pc info)
        = SaveStopState.looping (id, pc, info) ∧
    saveStopStep^[n] (SaveStopState.entry id pc info)
        ≠ SaveStopState.returned := by
  have h1 : saveStopStep^[n + 1] (SaveStopState.entry id pc info)
      = SaveStopState.looping (id, pc, info) := by
    rw [Function.iterate_succ_apply]
    exact saveStop_loop_fixed n (id, pc, info)
  refine ⟨h1, ?_⟩
  cases n with
  | zero => simp
  | succ m =>
    rw [Function.iterate_succ_apply]
    rw [show saveStopStep (SaveStopState.entry id pc info)
        = SaveStopState.looping (id, pc, info) from rfl]
    rw [saveStop_loop_fixed m (id, pc, info)]
    simp

/-- Claim C9: the two SDK fault identifiers sit at offsets one and two from
the documented range start 0x00004000, giving 0x00004001 and 0x00004002. -/
theorem C9_fault_id_offsets :
    NRF_FAULT_ID_SDK_RANGE_START = 0x00004000 ∧
    NRF_FAULT_ID_SDK_ERROR = NRF_FAULT_ID_SDK_RANGE_START + 1 ∧
    NRF_FAULT_ID_SDK_ASSERT = NRF_FAULT_ID_SDK_RANGE_START + 2 ∧
    NRF_FAULT_ID_SDK_ERROR = 0x00004001 ∧
    NRF_FAULT_ID_SDK_ASSERT = 0x00004002 := by
  decide

/-- Claim C10: for every memory, identifier, program counter and info value,
app_error_log writes nothing to any sink; its whole trace is one read of the
p_file_name field through info when id is one of the two known identifiers,
and empty — no action, no read through info — otherwise. -/
theorem C10_log_frame (mem : FaultMem) (id pc info : Nat) :
    (app_error_log mem id pc info).filter isOutput = [] ∧
    app_error_log mem id pc info =
      (if id = NRF_FAULT_ID_SDK_ASSERT ∨ id = NRF_FAULT_ID_SDK_ERROR
        then [Event.readFileNameField info] else []) := by
  by_cases h1 : id = NRF_FAULT_ID_SDK_ASSERT <;>
    by_cases h2 : id = NRF_FAULT_ID_SDK_ERROR <;>
      simp [app_error_log, h1, h2, isOutput, ite_self]
